import Mathlib

/-!
# SpawnOptions (ext/apache2/SpawnOptions.h)

A shallow embedding of the `Passenger::SpawnOptions` struct: its three
constructors and `toVector`, together with the two helpers of `Utils.h`
(`toString`, `atol`) that the header calls.

Conventions of the embedding:

* `std::string` is `String`, `vector<string>` is `List String`;
* `long` is an `Int` in `[-2^63, 2^63)`, `unsigned long` a `Nat` below `2^64`,
  `unsigned int` a `Nat` below `2^32`; arithmetic on them is reduced explicitly;
* `vec[i]` is `vec[i]?`: an index outside the vector has no defined result, so
  a constructor that performs such a read yields `none`.
-/

namespace Passenger

/-! ## Machine integers -/

/-- Number of values of an `unsigned int`. -/
def UINT_RANGE : Nat := 2 ^ 32

/-- Smallest `long`. -/
def LONG_MIN : Int := -(2 ^ 63)

/-- Largest `long`. -/
def LONG_MAX : Int := 2 ^ 63 - 1

/-- Number of values of an `unsigned long`. -/
def ULONG_RANGE : Nat := 2 ^ 64

/-- Conversion of a `long` to `unsigned long`, as done by the assignments
`maxRequests = atol(...)` and `memoryLimit = atol(...)`: reduction modulo `2^64`. -/
def longToUnsignedLong (v : Int) : Nat := (v % (ULONG_RANGE : Int)).toNat

/-! ## Helpers of Utils.h -/

/-- Modelled from the spec: `toString(long)` of `Utils.h`, which is not part of
the sources at hand. The spec says that numeric fields are "rendered as decimal
text": the digits of the magnitude, most significant first, after a minus sign
when the value is negative. -/
def toStringLong (value : Int) : String :=
  match value with
  | Int.ofNat m => Nat.repr m
  | Int.negSucc m => "-" ++ Nat.repr (m + 1)

/-- Modelled from the spec: `toString(unsigned long)` of `Utils.h`, which is not
part of the sources at hand: the decimal text of the value. -/
def toStringUnsignedLong (value : Nat) : String := Nat.repr value

/-- White space as the C library's `isspace` sees it in the "C" locale. -/
def isspace (c : Char) : Bool :=
  c.toNat = 32 || (9 ≤ c.toNat && c.toNat ≤ 13)

/-- Decimal digit characters, `'0'` to `'9'`. -/
def isdigit (c : Char) : Bool :=
  48 ≤ c.toNat && c.toNat ≤ 57

/-- Drop the leading white space of a text. -/
def skipSpace : List Char → List Char
  | [] => []
  | c :: cs => if isspace c then skipSpace cs else c :: cs

/-- Value of the longest prefix of decimal digits, continuing from `acc`. -/
def digitsValue : List Char → Nat → Nat
  | [], acc => acc
  | c :: cs, acc => if isdigit c then digitsValue cs (acc * 10 + (c.toNat - 48)) else acc

/-- One step of reading a decimal digit into an accumulated value. -/
def digitStep (acc : Nat) (c : Char) : Nat := acc * 10 + (c.toNat - 48)

/-- Bring a value into the range of `long`, as `strtol` does on overflow. -/
def clampLong (v : Int) : Int :=
  if v < LONG_MIN then LONG_MIN else if LONG_MAX < v then LONG_MAX else v

/-- Modelled from the spec: `atol(const string &)` of `Utils.h`, which is not
part of the sources at hand. The spec says that numeric fields "are parsed from
their text representation" and that a text that is no number gives a fallback
value, "typically zero", without any failure. This is the C library's `atol`:
leading white space is skipped, one optional sign is read, then the longest run
of decimal digits; no digits give 0; a value outside `long` is brought to the
nearest bound, as by `strtol`. -/
def atol (s : String) : Int :=
  match skipSpace s.data with
  | '-' :: rest => clampLong (-(digitsValue rest 0 : Int))
  | '+' :: rest => clampLong (digitsValue rest 0 : Int)
  | rest => clampLong (digitsValue rest 0 : Int)

/-- Whether a text begins with a decimal digit. -/
def startsWithDigit : List Char → Bool
  | [] => false
  | c :: _ => isdigit c

/-- A text in which `atol` finds no number: after the leading white space and
one optional sign there is no decimal digit. The empty text and `"abc"` are of
this kind, `"12abc"` is not. -/
def noLeadingNumber (s : String) : Bool :=
  match skipSpace s.data with
  | '-' :: rest => !startsWithDigit rest
  | '+' :: rest => !startsWithDigit rest
  | rest => !startsWithDigit rest

/-- Decimal number text, in the words of the spec: one optional sign followed
by one or more decimal digits and nothing else, which is what `toString`
writes for a number. -/
def isDecimalNumberText (s : String) : Bool :=
  match s.data with
  | '-' :: ds => !ds.isEmpty && ds.all isdigit
  | '+' :: ds => !ds.isEmpty && ds.all isdigit
  | ds => !ds.isEmpty && ds.all isdigit

/-! ## The record -/

/-- The struct `SpawnOptions`, field by field. -/
structure SpawnOptions where
  appRoot : String
  lowerPrivilege : Bool
  lowestUser : String
  environment : String
  spawnMethod : String
  appType : String
  frameworkSpawnerTimeout : Int
  appSpawnerTimeout : Int
  maxRequests : Nat
  memoryLimit : Nat
  deriving DecidableEq

/-- The numeric fields hold values of their C++ types: the two timeouts are
`long`, the two limits `unsigned long`. -/
def SpawnOptions.InRange (o : SpawnOptions) : Prop :=
  LONG_MIN ≤ o.frameworkSpawnerTimeout ∧ o.frameworkSpawnerTimeout ≤ LONG_MAX ∧
  LONG_MIN ≤ o.appSpawnerTimeout ∧ o.appSpawnerTimeout ≤ LONG_MAX ∧
  o.maxRequests < ULONG_RANGE ∧ o.memoryLimit < ULONG_RANGE

instance (o : SpawnOptions) : Decidable o.InRange := by
  unfold SpawnOptions.InRange; infer_instance

/-- The constructor `SpawnOptions()`: a default-constructed `appRoot` is the
empty string, the nine other fields are assigned. -/
def SpawnOptions.default : SpawnOptions :=
  { appRoot := ""
    lowerPrivilege := true
    lowestUser := "nobody"
    environment := "production"
    spawnMethod := "smart"
    appType := "rails"
    frameworkSpawnerTimeout := -1
    appSpawnerTimeout := -1
    maxRequests := 0
    memoryLimit := 0 }

/-- The constructor `SpawnOptions(appRoot, lowerPrivilege = true, ...)`: every
parameter after the first has the default argument of the C++ declaration, and
the body copies each parameter into its field. -/
def SpawnOptions.create (appRoot : String)
    (lowerPrivilege : Bool := true)
    (lowestUser : String := "nobody")
    (environment : String := "production")
    (spawnMethod : String := "smart")
    (appType : String := "rails")
    (frameworkSpawnerTimeout : Int := -1)
    (appSpawnerTimeout : Int := -1)
    (maxRequests : Nat := 0)
    (memoryLimit : Nat := 0) : SpawnOptions :=
  { appRoot := appRoot
    lowerPrivilege := lowerPrivilege
    lowestUser := lowestUser
    environment := environment
    spawnMethod := spawnMethod
    appType := appType
    frameworkSpawnerTimeout := frameworkSpawnerTimeout
    appSpawnerTimeout := appSpawnerTimeout
    maxRequests := maxRequests
    memoryLimit := memoryLimit }

/-! ## Decoding from a string vector -/

/-- The read `vec[startIndex + k]` of the decoding constructor. `startIndex` is
an `unsigned int` and so is the sum, which is therefore taken modulo `2^32`
before it indexes the vector; `none` is a read outside the vector. -/
def vecAt (vec : List String) (startIndex k : Nat) : Option String :=
  vec[(startIndex + k) % UINT_RANGE]?

/-- Offsets from `startIndex` of the ten reads, in the order of the constructor. -/
def readOffsets : List Nat := [1, 3, 5, 7, 9, 11, 13, 15, 17, 19]

/-- The ten reads performed by `SpawnOptions(vec, startIndex)`, in order. -/
def reads (vec : List String) (startIndex : Nat) : List (Option String) :=
  readOffsets.map (vecAt vec startIndex)

/-- The constructor `SpawnOptions(vec, startIndex)`. The result is `none` when
one of the reads falls outside the vector (the constructor has no error path of
its own: such a read is an out-of-range access). -/
def SpawnOptions.fromVector (vec : List String) (startIndex : Nat) : Option SpawnOptions := do
  let appRoot ← vecAt vec startIndex 1
  let lowerPrivilege ← vecAt vec startIndex 3
  let lowestUser ← vecAt vec startIndex 5
  let environment ← vecAt vec startIndex 7
  let spawnMethod ← vecAt vec startIndex 9
  let appType ← vecAt vec startIndex 11
  let frameworkSpawnerTimeout ← vecAt vec startIndex 13
  let appSpawnerTimeout ← vecAt vec startIndex 15
  let maxRequests ← vecAt vec startIndex 17
  let memoryLimit ← vecAt vec startIndex 19
  pure
    { appRoot := appRoot
      lowerPrivilege := decide (lowerPrivilege = "true")
      lowestUser := lowestUser
      environment := environment
      spawnMethod := spawnMethod
      appType := appType
      frameworkSpawnerTimeout := atol frameworkSpawnerTimeout
      appSpawnerTimeout := atol appSpawnerTimeout
      maxRequests := longToUnsignedLong (atol maxRequests)
      memoryLimit := longToUnsignedLong (atol memoryLimit) }

/-! ## Encoding to a string vector -/

/-- `vector::push_back`. -/
def push_back (vec : List String) (s : String) : List String := vec ++ [s]

/-- `vector::reserve`: it changes the capacity of the vector only, never its
elements, and the capacity is not part of this model. -/
def reserve (vec : List String) (_n : Nat) : List String := vec

/-- Both overloads of `appendKeyValue` (value a `string` or a C string). -/
def appendKeyValue (vec : List String) (key value : String) : List String :=
  push_back (push_back vec key) value

/-- `appendKeyValue2`: the value is a `long`. -/
def appendKeyValue2 (vec : List String) (key : String) (value : Int) : List String :=
  push_back (push_back vec key) (toStringLong value)

/-- `appendKeyValue3`: the value is an `unsigned long`. -/
def appendKeyValue3 (vec : List String) (key : String) (value : Nat) : List String :=
  push_back (push_back vec key) (toStringUnsignedLong value)

/-- The method `toVector`: the vector after the call. The capacity test of the
source only guards `reserve`, which leaves the elements as they are. -/
def SpawnOptions.toVector (o : SpawnOptions) (vec : List String) : List String :=
  let vec := reserve vec (vec.length + 10)
  let vec := appendKeyValue vec "app_root" o.appRoot
  let vec := appendKeyValue vec "lower_privilege" (if o.lowerPrivilege then "true" else "false")
  let vec := appendKeyValue vec "lowest_user" o.lowestUser
  let vec := appendKeyValue vec "environment" o.environment
  let vec := appendKeyValue vec "spawn_method" o.spawnMethod
  let vec := appendKeyValue vec "app_type" o.appType
  let vec := appendKeyValue2 vec "framework_spawner_timeout" o.frameworkSpawnerTimeout
  let vec := appendKeyValue2 vec "app_spawner_timeout" o.appSpawnerTimeout
  let vec := appendKeyValue3 vec "max_requests" o.maxRequests
  let vec := appendKeyValue3 vec "memory_limit" o.memoryLimit
  vec

/-- The call `o.toVector(vec)` as a step on the pair of the object and the
vector: the method is `const`, so the object comes out as it went in. -/
def toVectorStep (s : SpawnOptions × List String) : SpawnOptions × List String :=
  (s.1, s.1.toVector s.2)

/-! # Theorems -/

/-! ## Decimal text and its parsing -/

theorem digitChar_isdigit : ∀ d, d < 10 →
    isdigit (Nat.digitChar d) = true ∧ (Nat.digitChar d).toNat - 48 = d := by
  decide

theorem isspace_of_isdigit {c : Char} (h : isdigit c = true) : isspace c = false := by
  simp only [isdigit, Bool.and_eq_true, decide_eq_true_eq] at h
  simp only [isspace, Bool.or_eq_false_iff, Bool.and_eq_false_iff, decide_eq_false_iff_not]
  omega

theorem ne_sign_of_isdigit {c : Char} (h : isdigit c = true) : c ≠ '-' ∧ c ≠ '+' := by
  constructor <;> (rintro rfl; revert h; decide)

theorem digitsValue_append {ds : List Char} (h : ∀ c ∈ ds, isdigit c = true)
    (rest : List Char) (acc : Nat) :
    digitsValue (ds ++ rest) acc = digitsValue rest (ds.foldl digitStep acc) := by
  induction ds generalizing acc with
  | nil => rfl
  | cons c cs ih =>
    have hc : isdigit c = true := h c (List.mem_cons_self _ _)
    have hcs : ∀ x ∈ cs, isdigit x = true := fun x hx => h x (List.mem_cons_of_mem _ hx)
    simp only [List.cons_append, digitsValue, hc, if_true, List.foldl_cons]
    exact ih hcs _

/-- The digits written by `Nat.toDigitsCore` with enough fuel: a non-empty run
of decimal digits, put in front of the accumulator, whose value is `n`. -/
theorem toDigitsCore_spec (fuel : Nat) : ∀ (n : Nat) (acc : List Char), n < fuel →
    ∃ ds, Nat.toDigitsCore 10 fuel n acc = ds ++ acc ∧ ds ≠ [] ∧
      (∀ c ∈ ds, isdigit c = true) ∧ ds.foldl digitStep 0 = n := by
  induction fuel with
  | zero => intro n acc h; omega
  | succ fuel ih =>
    intro n acc h
    have hd := digitChar_isdigit (n % 10) (Nat.mod_lt _ (by decide))
    simp only [Nat.toDigitsCore]
    split_ifs with h0
    · refine ⟨[Nat.digitChar (n % 10)], rfl, by simp, ?_, ?_⟩
      · intro c hc
        rw [List.mem_singleton] at hc
        rw [hc]; exact hd.1
      · simp only [List.foldl_cons, List.foldl_nil, digitStep, hd.2]
        omega
    · obtain ⟨ds, hds, _, hdig, hval⟩ := ih (n / 10) (Nat.digitChar (n % 10) :: acc) (by omega)
      refine ⟨ds ++ [Nat.digitChar (n % 10)], ?_, by simp, ?_, ?_⟩
      · rw [hds]; simp
      · intro c hc
        rw [List.mem_append, List.mem_singleton] at hc
        rcases hc with hc | hc
        · exact hdig c hc
        · rw [hc]; exact hd.1
      · rw [List.foldl_append, hval]
        simp only [List.foldl_cons, List.foldl_nil, digitStep, hd.2]
        omega

/-- The decimal text of a natural number is a digit followed by digits, and
reading it gives the number back. -/
theorem repr_spec (n : Nat) : ∃ c cs, (Nat.repr n).data = c :: cs ∧ isdigit c = true ∧
    digitsValue (c :: cs) 0 = n := by
  obtain ⟨ds, hds, hne, hdig, hval⟩ := toDigitsCore_spec (n + 1) n [] (Nat.lt_succ_self n)
  have hdata : (Nat.repr n).data = ds := by
    show Nat.toDigitsCore 10 (n + 1) n [] = ds
    rw [hds, List.append_nil]
  cases ds with
  | nil => exact absurd rfl hne
  | cons c cs =>
    refine ⟨c, cs, hdata, hdig c (List.mem_cons_self _ _), ?_⟩
    have := digitsValue_append hdig [] 0
    rw [List.append_nil] at this
    rw [this, hval]; rfl

theorem clampLong_of_mem {v : Int} (h1 : LONG_MIN ≤ v) (h2 : v ≤ LONG_MAX) : clampLong v = v := by
  unfold clampLong
  rw [if_neg (not_lt.mpr h1), if_neg (not_lt.mpr h2)]

/-- Parsing the decimal text of a natural number: the number, brought down to
`LONG_MAX` when it is larger. -/
theorem atol_repr (n : Nat) : atol (Nat.repr n) = clampLong (n : Int) := by
  obtain ⟨c, cs, hdata, hc, hval⟩ := repr_spec n
  have hsp : skipSpace (c :: cs) = c :: cs := by
    simp only [skipSpace, isspace_of_isdigit hc, Bool.false_eq_true, if_false]
  obtain ⟨hm, hp⟩ := ne_sign_of_isdigit hc
  unfold atol
  rw [hdata, hsp]
  split
  · rename_i heq; exact absurd (List.cons.inj heq).1 hm
  · rename_i heq; exact absurd (List.cons.inj heq).1 hp
  · rw [hval]

/-- Parsing the text written for a `long` gives the `long` back. -/
theorem atol_toStringLong {v : Int} (h1 : LONG_MIN ≤ v) (h2 : v ≤ LONG_MAX) :
    atol (toStringLong v) = v := by
  cases v with
  | ofNat m =>
    show atol (Nat.repr m) = _
    rw [atol_repr]
    exact clampLong_of_mem h1 h2
  | negSucc m =>
    obtain ⟨c, cs, hdata, hc, hval⟩ := repr_spec (m + 1)
    have hd : (toStringLong (Int.negSucc m)).data = '-' :: c :: cs := by
      show ("-" ++ Nat.repr (m + 1)).data = _
      rw [String.data_append, hdata]; rfl
    have hsp : skipSpace ('-' :: c :: cs) = '-' :: c :: cs := by
      simp [skipSpace, isspace]
    unfold atol
    rw [hd, hsp]
    simp only [hval]
    have : (-((m + 1 : Nat) : Int)) = Int.negSucc m := by
      rw [Int.negSucc_eq]; push_cast; ring
    rw [this]
    exact clampLong_of_mem h1 h2

/-- Parsing the text written for an `unsigned long` and storing the `long` in
an `unsigned long` gives the value back when it is at most `LONG_MAX`. -/
theorem atol_toStringUnsignedLong {n : Nat} (h : (n : Int) ≤ LONG_MAX) :
    longToUnsignedLong (atol (toStringUnsignedLong n)) = n := by
  unfold toStringUnsignedLong
  rw [atol_repr, clampLong_of_mem (by unfold LONG_MIN; omega) h]
  unfold longToUnsignedLong ULONG_RANGE
  unfold LONG_MAX at h
  omega

/-- Above `LONG_MAX` the text of an `unsigned long` parses to `LONG_MAX`. -/
theorem atol_toStringUnsignedLong_big {n : Nat} (h : LONG_MAX < (n : Int)) :
    longToUnsignedLong (atol (toStringUnsignedLong n)) = 2 ^ 63 - 1 := by
  unfold toStringUnsignedLong
  rw [atol_repr]
  unfold clampLong
  rw [if_neg (by unfold LONG_MIN; omega), if_pos h]
  decide

/-! ## The vector written by toVector, and reading it back -/

theorem toVector_eq (o : SpawnOptions) (vec : List String) :
    o.toVector vec = vec ++
      ["app_root", o.appRoot,
       "lower_privilege", if o.lowerPrivilege then "true" else "false",
       "lowest_user", o.lowestUser,
       "environment", o.environment,
       "spawn_method", o.spawnMethod,
       "app_type", o.appType,
       "framework_spawner_timeout", toStringLong o.frameworkSpawnerTimeout,
       "app_spawner_timeout", toStringLong o.appSpawnerTimeout,
       "max_requests", toStringUnsignedLong o.maxRequests,
       "memory_limit", toStringUnsignedLong o.memoryLimit] := by
  simp [SpawnOptions.toVector, reserve, appendKeyValue, appendKeyValue2, appendKeyValue3,
    push_back]

theorem vecAt_append (vec enc : List String) (k : Nat) (h : vec.length + k < UINT_RANGE) :
    vecAt (vec ++ enc) vec.length k = enc[k]? := by
  unfold vecAt
  rw [Nat.mod_eq_of_lt h, List.getElem?_append_right (Nat.le_add_right _ _),
    Nat.add_sub_cancel_left]

/-- Decoding twenty tokens that stand at the end of a vector, from the index
where they start, when the offset arithmetic does not wrap. -/
theorem fromVector_append (vec : List String)
    (k0 v0 k1 v1 k2 v2 k3 v3 k4 v4 k5 v5 k6 v6 k7 v7 k8 v8 k9 v9 : String)
    (h : vec.length + 20 ≤ UINT_RANGE) :
    SpawnOptions.fromVector
      (vec ++ [k0, v0, k1, v1, k2, v2, k3, v3, k4, v4, k5, v5, k6, v6, k7, v7, k8, v8, k9, v9])
      vec.length =
    some
      { appRoot := v0
        lowerPrivilege := decide (v1 = "true")
        lowestUser := v2
        environment := v3
        spawnMethod := v4
        appType := v5
        frameworkSpawnerTimeout := atol v6
        appSpawnerTimeout := atol v7
        maxRequests := longToUnsignedLong (atol v8)
        memoryLimit := longToUnsignedLong (atol v9) } := by
  unfold SpawnOptions.fromVector
  rw [vecAt_append _ _ 1 (by omega), vecAt_append _ _ 3 (by omega),
    vecAt_append _ _ 5 (by omega), vecAt_append _ _ 7 (by omega),
    vecAt_append _ _ 9 (by omega), vecAt_append _ _ 11 (by omega),
    vecAt_append _ _ 13 (by omega), vecAt_append _ _ 15 (by omega),
    vecAt_append _ _ 17 (by omega), vecAt_append _ _ 19 (by omega)]
  rfl

theorem length_toVector (o : SpawnOptions) (vec : List String) :
    (o.toVector vec).length = vec.length + 20 := by
  rw [toVector_eq, List.length_append]; rfl

/-- What a successful decoding has read. -/
theorem reads_of_fromVector {vec : List String} {startIndex : Nat} {d : SpawnOptions}
    (h : SpawnOptions.fromVector vec startIndex = some d) :
    ∃ v0 v1 v2 v3 v4 v5 v6 v7 v8 v9,
      vecAt vec startIndex 1 = some v0 ∧ vecAt vec startIndex 3 = some v1 ∧
      vecAt vec startIndex 5 = some v2 ∧ vecAt vec startIndex 7 = some v3 ∧
      vecAt vec startIndex 9 = some v4 ∧ vecAt vec startIndex 11 = some v5 ∧
      vecAt vec startIndex 13 = some v6 ∧ vecAt vec startIndex 15 = some v7 ∧
      vecAt vec startIndex 17 = some v8 ∧ vecAt vec startIndex 19 = some v9 ∧
      d = { appRoot := v0
            lowerPrivilege := decide (v1 = "true")
            lowestUser := v2
            environment := v3
            spawnMethod := v4
            appType := v5
            frameworkSpawnerTimeout := atol v6
            appSpawnerTimeout := atol v7
            maxRequests := longToUnsignedLong (atol v8)
            memoryLimit := longToUnsignedLong (atol v9) } := by
  unfold SpawnOptions.fromVector at h
  simp only [Option.bind_eq_bind, Option.bind_eq_some, Option.pure_def, Option.some.injEq] at h
  obtain ⟨v0, h0, v1, h1, v2, h2, v3, h3, v4, h4, v5, h5, v6, h6, v7, h7, v8, h8, v9, h9, hd⟩ := h
  exact ⟨v0, v1, v2, v3, v4, v5, v6, v7, v8, v9, h0, h1, h2, h3, h4, h5, h6, h7, h8, h9, hd.symm⟩

/-- A decoding whose ten reads are in range constructs a record. -/
theorem fromVector_of_reads {vec : List String} {startIndex : Nat}
    {v0 v1 v2 v3 v4 v5 v6 v7 v8 v9 : String}
    (h0 : vecAt vec startIndex 1 = some v0) (h1 : vecAt vec startIndex 3 = some v1)
    (h2 : vecAt vec startIndex 5 = some v2) (h3 : vecAt vec startIndex 7 = some v3)
    (h4 : vecAt vec startIndex 9 = some v4) (h5 : vecAt vec startIndex 11 = some v5)
    (h6 : vecAt vec startIndex 13 = some v6) (h7 : vecAt vec startIndex 15 = some v7)
    (h8 : vecAt vec startIndex 17 = some v8) (h9 : vecAt vec startIndex 19 = some v9) :
    SpawnOptions.fromVector vec startIndex = some
      { appRoot := v0
        lowerPrivilege := decide (v1 = "true")
        lowestUser := v2
        environment := v3
        spawnMethod := v4
        appType := v5
        frameworkSpawnerTimeout := atol v6
        appSpawnerTimeout := atol v7
        maxRequests := longToUnsignedLong (atol v8)
        memoryLimit := longToUnsignedLong (atol v9) } := by
  unfold SpawnOptions.fromVector
  rw [h0, h1, h2, h3, h4, h5, h6, h7, h8, h9]
  rfl

/-- A decoding whose last read is out of range constructs nothing. -/
theorem fromVector_none_of_last {vec : List String} {startIndex : Nat}
    (h : vecAt vec startIndex 19 = none) : SpawnOptions.fromVector vec startIndex = none := by
  cases hd : SpawnOptions.fromVector vec startIndex with
  | none => rfl
  | some d =>
    obtain ⟨_, _, _, _, _, _, _, _, _, v9, _, _, _, _, _, _, _, _, _, h9, _⟩ :=
      reads_of_fromVector hd
    rw [h] at h9
    exact absurd h9 (by simp)

theorem vecAt_isSome_of_lt {vec : List String} {startIndex k : Nat}
    (h : startIndex + k < vec.length) : ∃ v, vecAt vec startIndex k = some v := by
  have hlt : (startIndex + k) % UINT_RANGE < vec.length :=
    lt_of_le_of_lt (Nat.mod_le _ _) h
  exact ⟨vec[(startIndex + k) % UINT_RANGE], List.getElem?_eq_getElem hlt⟩

theorem vecAt_eq_getElem? (vec : List String) {startIndex k : Nat}
    (h : startIndex + k < UINT_RANGE) : vecAt vec startIndex k = vec[startIndex + k]? := by
  unfold vecAt
  rw [Nat.mod_eq_of_lt h]

/-- Encoding and decoding at the old size gives the record back, when the
limits fit a `long` and the offsets do not wrap. -/
theorem fromVector_toVector (o : SpawnOptions) (vec : List String)
    (hr : o.InRange) (hmax : (o.maxRequests : Int) ≤ LONG_MAX)
    (hmem : (o.memoryLimit : Int) ≤ LONG_MAX) (hlen : vec.length + 20 ≤ UINT_RANGE) :
    SpawnOptions.fromVector (o.toVector vec) vec.length = some o := by
  obtain ⟨h1, h2, h3, h4, _, _⟩ := hr
  rw [toVector_eq, fromVector_append _ _ _ _ _ _ _ _ _ _ _ _ _ _ _ _ _ _ _ _ _ hlen,
    atol_toStringLong h1 h2, atol_toStringLong h3 h4, atol_toStringUnsignedLong hmax,
    atol_toStringUnsignedLong hmem]
  cases o with
  | mk a lp b c d e f g h i => cases lp <;> rfl

/-- The offsets from `2^32 - 1` wrap around to the start of the vector. -/
theorem wrap_offset {k : Nat} (h1 : 1 ≤ k) (h2 : k ≤ 4294967296) :
    (4294967295 + k) % UINT_RANGE = k - 1 := by
  unfold UINT_RANGE
  omega

/-- Decoding at index `2^32 - 1` behind `2^32 - 1` old elements reads the old
elements at `0, 2, ..., 18`, whatever was appended. -/
theorem fromVector_behind_full (enc : List String) :
    SpawnOptions.fromVector (List.replicate 4294967295 "x" ++ enc) 4294967295
      = some
        { appRoot := "x"
          lowerPrivilege := false
          lowestUser := "x"
          environment := "x"
          spawnMethod := "x"
          appType := "x"
          frameworkSpawnerTimeout := 0
          appSpawnerTimeout := 0
          maxRequests := 0
          memoryLimit := 0 } := by
  have hx : ∀ i : Nat, i < 4294967295 →
      (List.replicate 4294967295 "x" ++ enc)[i]? = some "x" := by
    intro i hi
    rw [List.getElem?_append_left (by rw [List.length_replicate]; exact hi),
      List.getElem?_replicate, if_pos hi]
  unfold SpawnOptions.fromVector vecAt
  rw [wrap_offset (show 1 ≤ 1 by decide) (by decide),
    wrap_offset (show 1 ≤ 3 by decide) (by decide),
    wrap_offset (show 1 ≤ 5 by decide) (by decide),
    wrap_offset (show 1 ≤ 7 by decide) (by decide),
    wrap_offset (show 1 ≤ 9 by decide) (by decide),
    wrap_offset (show 1 ≤ 11 by decide) (by decide),
    wrap_offset (show 1 ≤ 13 by decide) (by decide),
    wrap_offset (show 1 ≤ 15 by decide) (by decide),
    wrap_offset (show 1 ≤ 17 by decide) (by decide),
    wrap_offset (show 1 ≤ 19 by decide) (by decide)]
  rw [hx (1 - 1) (by decide), hx (3 - 1) (by decide), hx (5 - 1) (by decide),
    hx (7 - 1) (by decide), hx (9 - 1) (by decide), hx (11 - 1) (by decide),
    hx (13 - 1) (by decide), hx (15 - 1) (by decide), hx (17 - 1) (by decide),
    hx (19 - 1) (by decide)]
  have ha : atol "x" = 0 := by decide
  have hl : longToUnsignedLong 0 = 0 := by decide
  have hb : decide ("x" = "true") = false := by decide
  simp only [Option.bind_eq_bind, Option.some_bind, Option.pure_def, ha, hl, hb]

/-! ## C1: round trip -/

/-- C1 (as amended). Round trip: for every record `o` whose timeouts are `long`
values and whose `maxRequests` and `memoryLimit` are at most `LONG_MAX = 2^63 - 1`,
and every vector `vec` with `vec.size() + 20 ≤ 2^32`, calling `o.toVector(vec)` and
then constructing `SpawnOptions(vec, n)` with `n` the size `vec` had before the
call yields a record equal to `o` in all ten fields. -/
theorem roundtrip_toVector_fromVector (o : SpawnOptions) (vec : List String)
    (hr : o.InRange) (hmax : (o.maxRequests : Int) ≤ LONG_MAX)
    (hmem : (o.memoryLimit : Int) ≤ LONG_MAX) (hlen : vec.length + 20 ≤ UINT_RANGE) :
    SpawnOptions.fromVector (o.toVector vec) vec.length = some o :=
  fromVector_toVector o vec hr hmax hmem hlen

/-- Witness of C1: the default record appended to the vector `["my", "data"]` of
the source's own example and decoded at index 2. -/
theorem roundtrip_toVector_fromVector_witness :
    SpawnOptions.fromVector (SpawnOptions.default.toVector ["my", "data"])
      ["my", "data"].length = some SpawnOptions.default :=
  roundtrip_toVector_fromVector SpawnOptions.default ["my", "data"]
    (by decide) (by decide) (by decide) (by decide)

/-- C1 fails as stated, in two ways. A `maxRequests` of `2^64 - 1`, a value of
`unsigned long`, comes back as `2^63 - 1`. And behind a vector of `2^32 - 1`
elements the `unsigned int` offsets `n + 1, n + 3, ...` wrap around to
`0, 2, ...`, so the old elements of the vector are decoded instead of the
record that was appended. -/
theorem roundtrip_counterexample :
    ({ SpawnOptions.default with maxRequests := 18446744073709551615 } : SpawnOptions).InRange ∧
    SpawnOptions.fromVector
      (({ SpawnOptions.default with maxRequests := 18446744073709551615 } :
        SpawnOptions).toVector []) ([] : List String).length
      = some { SpawnOptions.default with maxRequests := 9223372036854775807 } ∧
    SpawnOptions.default.InRange ∧
    (List.replicate 4294967295 "x").length = 4294967295 ∧
    SpawnOptions.fromVector (SpawnOptions.default.toVector (List.replicate 4294967295 "x"))
      (List.replicate 4294967295 "x").length
      = some
        { appRoot := "x"
          lowerPrivilege := false
          lowestUser := "x"
          environment := "x"
          spawnMethod := "x"
          appType := "x"
          frameworkSpawnerTimeout := 0
          appSpawnerTimeout := 0
          maxRequests := 0
          memoryLimit := 0 } := by
  refine ⟨by decide, by decide, by decide, List.length_replicate _ _, ?_⟩
  have hx : ∀ (enc : List String) (k : Nat), k < 4294967295 →
      (List.replicate 4294967295 "x" ++ enc)[k]? = some "x" := by
    intro enc k hk
    rw [List.getElem?_append_left (by rw [List.length_replicate]; exact hk),
      List.getElem?_replicate, if_pos hk]
  rw [toVector_eq, List.length_replicate]
  unfold SpawnOptions.fromVector vecAt
  have e1 : (4294967295 + 1) % UINT_RANGE = 0 := by decide
  have e3 : (4294967295 + 3) % UINT_RANGE = 2 := by decide
  have e5 : (4294967295 + 5) % UINT_RANGE = 4 := by decide
  have e7 : (4294967295 + 7) % UINT_RANGE = 6 := by decide
  have e9 : (4294967295 + 9) % UINT_RANGE = 8 := by decide
  have e11 : (4294967295 + 11) % UINT_RANGE = 10 := by decide
  have e13 : (4294967295 + 13) % UINT_RANGE = 12 := by decide
  have e15 : (4294967295 + 15) % UINT_RANGE = 14 := by decide
  have e17 : (4294967295 + 17) % UINT_RANGE = 16 := by decide
  have e19 : (4294967295 + 19) % UINT_RANGE = 18 := by decide
  rw [e1, e3, e5, e7, e9, e11, e13, e15, e17, e19,
    hx _ 0 (by decide), hx _ 2 (by decide), hx _ 4 (by decide), hx _ 6 (by decide),
    hx _ 8 (by decide), hx _ 10 (by decide), hx _ 12 (by decide), hx _ 14 (by decide),
    hx _ 16 (by decide), hx _ 18 (by decide)]
  decide

/-! ## C2: decoding the second of two records -/

/-- C2 (as amended). Offset correctness: for every pair of records `a` and `b`,
where the timeouts of `b` are `long` values and its `maxRequests` and
`memoryLimit` are at most `LONG_MAX = 2^63 - 1`, after `a.toVector(vec)` followed
by `b.toVector(vec)` on an initially empty `vec`, constructing
`SpawnOptions(vec, 20)` reproduces every field of `b` exactly. -/
theorem second_record_at_offset_20 (a b : SpawnOptions) (hr : b.InRange)
    (hmax : (b.maxRequests : Int) ≤ LONG_MAX) (hmem : (b.memoryLimit : Int) ≤ LONG_MAX) :
    SpawnOptions.fromVector (b.toVector (a.toVector [])) 20 = some b := by
  have hlen : (a.toVector []).length = 20 := length_toVector a []
  have h := fromVector_toVector b (a.toVector []) hr hmax hmem (by rw [hlen]; decide)
  rw [hlen] at h
  exact h

/-- Witness of C2: two records that differ in every field. -/
theorem second_record_at_offset_20_witness :
    SpawnOptions.fromVector
      ((SpawnOptions.create "/srv/b" false "www" "staging" "conservative" "rack" 0 60 500
          128).toVector
        ((SpawnOptions.create "/srv/a").toVector [])) 20
      = some (SpawnOptions.create "/srv/b" false "www" "staging" "conservative" "rack" 0 60 500
          128) :=
  second_record_at_offset_20 (SpawnOptions.create "/srv/a")
    (SpawnOptions.create "/srv/b" false "www" "staging" "conservative" "rack" 0 60 500 128)
    (by decide) (by decide) (by decide)

/-- C2 fails as stated: a record takes twenty slots, so index 10 lies inside
the first record; decoding there reads the second half of `a` and the first
half of `b`, labels included. And at index 20, where `b` does start, a
`maxRequests` of `2^64 - 1` still comes back as `2^63 - 1`. -/
theorem second_record_at_offset_10_counterexample :
    SpawnOptions.fromVector
      ((SpawnOptions.create "/srv/b").toVector ((SpawnOptions.create "/srv/a").toVector [])) 10
      = some
        { appRoot := "rails"
          lowerPrivilege := false
          lowestUser := "-1"
          environment := "0"
          spawnMethod := "0"
          appType := "/srv/b"
          frameworkSpawnerTimeout := 0
          appSpawnerTimeout := 0
          maxRequests := 0
          memoryLimit := 0 } ∧
    (SpawnOptions.create "/srv/b" true "nobody" "production" "smart" "rails" (-1) (-1)
      18446744073709551615 0).InRange ∧
    SpawnOptions.fromVector
      ((SpawnOptions.create "/srv/b" true "nobody" "production" "smart" "rails" (-1) (-1)
          18446744073709551615 0).toVector ((SpawnOptions.create "/srv/a").toVector [])) 20
      = some (SpawnOptions.create "/srv/b" true "nobody" "production" "smart" "rails" (-1) (-1)
          9223372036854775807 0) := by
  refine ⟨by decide, by decide, by decide⟩

/-! ## C3: layout of the encoding -/

/-- C3. Encoded layout: `o.toVector(vec)` leaves `vec` equal to its old contents
followed by exactly the ten label/value pairs, in the fixed order, the flag as
`"true"` or `"false"` and the four numbers as decimal text. -/
theorem toVector_layout (o : SpawnOptions) (vec : List String) :
    o.toVector vec = vec ++
      ["app_root", o.appRoot,
       "lower_privilege", if o.lowerPrivilege then "true" else "false",
       "lowest_user", o.lowestUser,
       "environment", o.environment,
       "spawn_method", o.spawnMethod,
       "app_type", o.appType,
       "framework_spawner_timeout", toStringLong o.frameworkSpawnerTimeout,
       "app_spawner_timeout", toStringLong o.appSpawnerTimeout,
       "max_requests", toStringUnsignedLong o.maxRequests,
       "memory_limit", toStringUnsignedLong o.memoryLimit] :=
  toVector_eq o vec

/-! ## C4: toVector only appends -/

/-- C4. Pure append: after `o.toVector(vec)` on a vector of length `n` the
length is `n + 20`, every element at an index below `n` is unchanged (the first
`n` elements are the old vector), and the record `o` is unchanged. -/
theorem toVector_pure_append (o : SpawnOptions) (vec : List String) :
    (toVectorStep (o, vec)).2.length = vec.length + 20 ∧
    (∀ i, i < vec.length → (toVectorStep (o, vec)).2[i]? = vec[i]?) ∧
    (toVectorStep (o, vec)).2.take vec.length = vec ∧
    (toVectorStep (o, vec)).1 = o := by
  refine ⟨length_toVector o vec, ?_, ?_, rfl⟩
  · intro i hi
    show (o.toVector vec)[i]? = vec[i]?
    rw [toVector_eq, List.getElem?_append_left hi]
  · show (o.toVector vec).take vec.length = vec
    rw [toVector_eq, List.take_left']
    rfl

/-! ## C5: default values -/

/-- C5. Default values: `SpawnOptions()` has an empty `appRoot`,
`lowerPrivilege = true`, `lowestUser = "nobody"`, `environment = "production"`,
`spawnMethod = "smart"`, `appType = "rails"`, both timeouts `-1`, and
`maxRequests = 0`, `memoryLimit = 0`. -/
theorem default_values :
    SpawnOptions.default.appRoot = "" ∧
    SpawnOptions.default.lowerPrivilege = true ∧
    SpawnOptions.default.lowestUser = "nobody" ∧
    SpawnOptions.default.environment = "production" ∧
    SpawnOptions.default.spawnMethod = "smart" ∧
    SpawnOptions.default.appType = "rails" ∧
    SpawnOptions.default.frameworkSpawnerTimeout = -1 ∧
    SpawnOptions.default.appSpawnerTimeout = -1 ∧
    SpawnOptions.default.maxRequests = 0 ∧
    SpawnOptions.default.memoryLimit = 0 :=
  ⟨rfl, rfl, rfl, rfl, rfl, rfl, rfl, rfl, rfl, rfl⟩

/-! ## C6: the field constructor -/

/-- C6. Field construction: `SpawnOptions(r)` with every optional argument
omitted has `appRoot = r` and the nine other fields of `SpawnOptions()`; with
all arguments supplied, each of the ten fields equals its argument. -/
theorem create_fields (r : String) (lowerPrivilege : Bool)
    (lowestUser environment spawnMethod appType : String)
    (frameworkSpawnerTimeout appSpawnerTimeout : Int) (maxRequests memoryLimit : Nat) :
    SpawnOptions.create r = { SpawnOptions.default with appRoot := r } ∧
    (SpawnOptions.create r).appRoot = r ∧
    (SpawnOptions.create r).lowerPrivilege = SpawnOptions.default.lowerPrivilege ∧
    (SpawnOptions.create r).lowestUser = SpawnOptions.default.lowestUser ∧
    (SpawnOptions.create r).environment = SpawnOptions.default.environment ∧
    (SpawnOptions.create r).spawnMethod = SpawnOptions.default.spawnMethod ∧
    (SpawnOptions.create r).appType = SpawnOptions.default.appType ∧
    (SpawnOptions.create r).frameworkSpawnerTimeout
      = SpawnOptions.default.frameworkSpawnerTimeout ∧
    (SpawnOptions.create r).appSpawnerTimeout = SpawnOptions.default.appSpawnerTimeout ∧
    (SpawnOptions.create r).maxRequests = SpawnOptions.default.maxRequests ∧
    (SpawnOptions.create r).memoryLimit = SpawnOptions.default.memoryLimit ∧
    SpawnOptions.create r lowerPrivilege lowestUser environment spawnMethod appType
        frameworkSpawnerTimeout appSpawnerTimeout maxRequests memoryLimit
      = { appRoot := r
          lowerPrivilege := lowerPrivilege
          lowestUser := lowestUser
          environment := environment
          spawnMethod := spawnMethod
          appType := appType
          frameworkSpawnerTimeout := frameworkSpawnerTimeout
          appSpawnerTimeout := appSpawnerTimeout
          maxRequests := maxRequests
          memoryLimit := memoryLimit } :=
  ⟨rfl, rfl, rfl, rfl, rfl, rfl, rfl, rfl, rfl, rfl, rfl, rfl⟩

/-! ## C7: the privilege flag as text -/

/-- C7 (as amended). Boolean encoding: for every record `o` and vector `vec`, the
token that `toVector` writes right after the label `"lower_privilege"` is exactly
`"true"` when `o.lowerPrivilege` is true and exactly `"false"` when it is false;
and when `vec.size() + 20 ≤ 2^32`, decoding the produced sequence at the index
where the record starts gives `lowerPrivilege` equal to `o.lowerPrivilege`. -/
theorem lowerPrivilege_encoding (o : SpawnOptions) (vec : List String) :
    (o.toVector vec)[vec.length + 2]? = some "lower_privilege" ∧
    (o.toVector vec)[vec.length + 3]? = some (if o.lowerPrivilege then "true" else "false") ∧
    (vec.length + 20 ≤ UINT_RANGE →
      ∃ d, SpawnOptions.fromVector (o.toVector vec) vec.length = some d ∧
        d.lowerPrivilege = o.lowerPrivilege) := by
  rw [toVector_eq]
  refine ⟨?_, ?_, ?_⟩
  · rw [List.getElem?_append_right (Nat.le_add_right _ _), Nat.add_sub_cancel_left]
    rfl
  · rw [List.getElem?_append_right (Nat.le_add_right _ _), Nat.add_sub_cancel_left]
    rfl
  · intro hlen
    rw [fromVector_append _ _ _ _ _ _ _ _ _ _ _ _ _ _ _ _ _ _ _ _ _ hlen]
    refine ⟨_, rfl, ?_⟩
    cases o.lowerPrivilege <;> rfl

/-- Witness of C7: a record with the flag off, appended to `["my", "data"]`. -/
theorem lowerPrivilege_encoding_witness :
    ((SpawnOptions.create "/srv/app" false).toVector ["my", "data"])[["my", "data"].length + 2]?
      = some "lower_privilege" ∧
    ((SpawnOptions.create "/srv/app" false).toVector ["my", "data"])[["my", "data"].length + 3]?
      = some (if (SpawnOptions.create "/srv/app" false).lowerPrivilege then "true" else "false") ∧
    ∃ d, SpawnOptions.fromVector ((SpawnOptions.create "/srv/app" false).toVector ["my", "data"])
        ["my", "data"].length = some d ∧
      d.lowerPrivilege = (SpawnOptions.create "/srv/app" false).lowerPrivilege :=
  ⟨(lowerPrivilege_encoding (SpawnOptions.create "/srv/app" false) ["my", "data"]).1,
   (lowerPrivilege_encoding (SpawnOptions.create "/srv/app" false) ["my", "data"]).2.1,
   (lowerPrivilege_encoding (SpawnOptions.create "/srv/app" false) ["my", "data"]).2.2
     (by decide)⟩

/-- C7 fails as stated: appended to a vector of `2^32 - 1` elements, the default
record, whose flag is true, is written with the token `"true"` after its label;
but decoding at that size, where the `unsigned int` offset `n + 3` wraps around to
2, reads an old element and gives `lowerPrivilege = false`. -/
theorem lowerPrivilege_wrap_counterexample :
    SpawnOptions.default.lowerPrivilege = true ∧
    (List.replicate 4294967295 "x").length = 4294967295 ∧
    (SpawnOptions.default.toVector (List.replicate 4294967295 "x"))[
      (List.replicate 4294967295 "x").length + 3]? = some "true" ∧
    (SpawnOptions.fromVector (SpawnOptions.default.toVector (List.replicate 4294967295 "x"))
      (List.replicate 4294967295 "x").length).map (fun d => d.lowerPrivilege) = some false := by
  refine ⟨rfl, List.length_replicate _ _, ?_, ?_⟩
  · rw [toVector_eq, List.getElem?_append_right (Nat.le_add_right _ _),
      Nat.add_sub_cancel_left]
    rfl
  · rw [toVector_eq, List.length_replicate, fromVector_behind_full]
    rfl

/-! ## C8: the timeout sentinels -/

/-- C8 (as amended). Sentinel preservation: for every record `o` whose
`frameworkSpawnerTimeout` and `appSpawnerTimeout` are each `-1` or `0`, and every
vector `vec` with `vec.size() + 20 ≤ 2^32`, encoding with `toVector` onto `vec` and
decoding at the index where the record starts returns the same two timeout
values. -/
theorem timeout_sentinels_preserved (o : SpawnOptions) (vec : List String)
    (hf : o.frameworkSpawnerTimeout = -1 ∨ o.frameworkSpawnerTimeout = 0)
    (ha : o.appSpawnerTimeout = -1 ∨ o.appSpawnerTimeout = 0)
    (hlen : vec.length + 20 ≤ UINT_RANGE) :
    ∃ d, SpawnOptions.fromVector (o.toVector vec) vec.length = some d ∧
      d.frameworkSpawnerTimeout = o.frameworkSpawnerTimeout ∧
      d.appSpawnerTimeout = o.appSpawnerTimeout := by
  have hrange : ∀ v : Int, v = -1 ∨ v = 0 → LONG_MIN ≤ v ∧ v ≤ LONG_MAX := by
    intro v hv
    rcases hv with hv | hv <;> (rw [hv]; decide)
  rw [toVector_eq, fromVector_append _ _ _ _ _ _ _ _ _ _ _ _ _ _ _ _ _ _ _ _ _ hlen]
  exact ⟨_, rfl, atol_toStringLong (hrange _ hf).1 (hrange _ hf).2,
    atol_toStringLong (hrange _ ha).1 (hrange _ ha).2⟩

/-- Witness of C8: "use the default" for one timeout, "never" for the other. -/
theorem timeout_sentinels_preserved_witness :
    ∃ d, SpawnOptions.fromVector
        ((SpawnOptions.create "/srv/app" true "nobody" "production" "smart" "rails" (-1)
          0).toVector []) ([] : List String).length = some d ∧
      d.frameworkSpawnerTimeout =
        (SpawnOptions.create "/srv/app" true "nobody" "production" "smart" "rails" (-1)
          0).frameworkSpawnerTimeout ∧
      d.appSpawnerTimeout =
        (SpawnOptions.create "/srv/app" true "nobody" "production" "smart" "rails" (-1)
          0).appSpawnerTimeout :=
  timeout_sentinels_preserved
    (SpawnOptions.create "/srv/app" true "nobody" "production" "smart" "rails" (-1) 0) []
    (Or.inl rfl) (Or.inr rfl) (by decide)

/-- C8 fails as stated: the default record has both timeouts `-1`; appended to a
vector of `2^32 - 1` elements and decoded at that size, where the `unsigned int`
offsets `n + 13` and `n + 15` wrap around to 12 and 14, old elements are parsed
and both timeouts come back as 0. -/
theorem timeout_sentinels_wrap_counterexample :
    SpawnOptions.default.frameworkSpawnerTimeout = -1 ∧
    SpawnOptions.default.appSpawnerTimeout = -1 ∧
    (List.replicate 4294967295 "x").length = 4294967295 ∧
    (SpawnOptions.fromVector (SpawnOptions.default.toVector (List.replicate 4294967295 "x"))
      (List.replicate 4294967295 "x").length).map
        (fun d => (d.frameworkSpawnerTimeout, d.appSpawnerTimeout)) = some (0, 0) := by
  refine ⟨rfl, rfl, List.length_replicate _ _, ?_⟩
  rw [toVector_eq, List.length_replicate, fromVector_behind_full]
  rfl

/-! ## C9: the environment name -/

/-- C9 (as amended). Environment: `SpawnOptions()` gives the environment
`"production"`, which is not empty, and so does the field constructor when the
environment argument is omitted; with the argument supplied, the field
constructor gives exactly that argument, and the decoding constructor gives
exactly the token it reads at `startIndex + 7`. No constructor checks the
name, so those two give a non-empty environment when the argument or the token
is non-empty. -/
theorem environment_of_constructors (r : String) (lowerPrivilege : Bool)
    (lowestUser environment spawnMethod appType : String)
    (frameworkSpawnerTimeout appSpawnerTimeout : Int) (maxRequests memoryLimit : Nat)
    (vec : List String) (startIndex : Nat) (d : SpawnOptions)
    (h : SpawnOptions.fromVector vec startIndex = some d) :
    SpawnOptions.default.environment = "production" ∧
    SpawnOptions.default.environment ≠ "" ∧
    (SpawnOptions.create r).environment = "production" ∧
    (SpawnOptions.create r lowerPrivilege lowestUser environment spawnMethod appType
      frameworkSpawnerTimeout appSpawnerTimeout maxRequests memoryLimit).environment
      = environment ∧
    vecAt vec startIndex 7 = some d.environment := by
  obtain ⟨v0, v1, v2, v3, v4, v5, v6, v7, v8, v9, _, _, _, h3, _, _, _, _, _, _, hd⟩ :=
    reads_of_fromVector h
  refine ⟨rfl, by decide, rfl, rfl, ?_⟩
  rw [h3, hd]

/-- Witness of C9: the record of the source's example, decoded at index 2. -/
theorem environment_of_constructors_witness :
    SpawnOptions.default.environment = "production" ∧
    SpawnOptions.default.environment ≠ "" ∧
    (SpawnOptions.create "/srv/app").environment = "production" ∧
    (SpawnOptions.create "/srv/app" false "www" "staging" "conservative" "rack" 0 60 500
      128).environment = "staging" ∧
    vecAt (SpawnOptions.default.toVector ["my", "data"]) 2 7
      = some SpawnOptions.default.environment :=
  environment_of_constructors "/srv/app" false "www" "staging" "conservative" "rack" 0 60 500
    128 (SpawnOptions.default.toVector ["my", "data"]) 2 SpawnOptions.default (by decide)

/-- C9 fails as stated: the field constructor called with an empty environment
gives a record whose environment is empty, and decoding the encoding of that
record gives it again. -/
theorem environment_empty_counterexample :
    (SpawnOptions.create "/srv/app" true "nobody" "").environment = "" ∧
    SpawnOptions.fromVector ((SpawnOptions.create "/srv/app" true "nobody" "").toVector []) 0
      = some (SpawnOptions.create "/srv/app" true "nobody" "") ∧
    SpawnOptions.fromVector
      ["app_root", "/srv/app", "lower_privilege", "true", "lowest_user", "nobody",
       "environment", "", "spawn_method", "smart", "app_type", "rails",
       "framework_spawner_timeout", "-1", "app_spawner_timeout", "-1",
       "max_requests", "0", "memory_limit", "0"] 0
      = some
        { appRoot := "/srv/app"
          lowerPrivilege := true
          lowestUser := "nobody"
          environment := ""
          spawnMethod := "smart"
          appType := "rails"
          frameworkSpawnerTimeout := -1
          appSpawnerTimeout := -1
          maxRequests := 0
          memoryLimit := 0 } := by
  refine ⟨rfl, by decide, by decide⟩

/-! ## C10: the reads of the decoder -/

/-- C10 (as amended). Bounds of the positional decoder, indexing returning
`Option`: whenever `startIndex + 20 ≤ vec.size()` all ten reads are in range and
a record is constructed; and whenever the offsets do not wrap around as
`unsigned int`, that is `startIndex + 19 < 2^32`, the ten reads are at
`startIndex + 1, + 3, ..., + 19`, and if `vec.size() < startIndex + 20` the read at
`startIndex + 19` is out of range, the constructor producing no record and, having
no error path, no error either. -/
theorem reads_in_range (vec : List String) (startIndex : Nat) :
    (startIndex + 20 ≤ vec.length →
      (∀ r ∈ reads vec startIndex, r.isSome = true) ∧
      (SpawnOptions.fromVector vec startIndex).isSome = true) ∧
    (startIndex + 20 ≤ UINT_RANGE →
      reads vec startIndex = readOffsets.map (fun k => vec[startIndex + k]?) ∧
      (vec.length < startIndex + 20 →
        vecAt vec startIndex 19 = none ∧ none ∈ reads vec startIndex ∧
        SpawnOptions.fromVector vec startIndex = none)) := by
  constructor
  · intro hsize
    obtain ⟨v0, h0⟩ := vecAt_isSome_of_lt (show startIndex + 1 < vec.length by omega)
    obtain ⟨v1, h1⟩ := vecAt_isSome_of_lt (show startIndex + 3 < vec.length by omega)
    obtain ⟨v2, h2⟩ := vecAt_isSome_of_lt (show startIndex + 5 < vec.length by omega)
    obtain ⟨v3, h3⟩ := vecAt_isSome_of_lt (show startIndex + 7 < vec.length by omega)
    obtain ⟨v4, h4⟩ := vecAt_isSome_of_lt (show startIndex + 9 < vec.length by omega)
    obtain ⟨v5, h5⟩ := vecAt_isSome_of_lt (show startIndex + 11 < vec.length by omega)
    obtain ⟨v6, h6⟩ := vecAt_isSome_of_lt (show startIndex + 13 < vec.length by omega)
    obtain ⟨v7, h7⟩ := vecAt_isSome_of_lt (show startIndex + 15 < vec.length by omega)
    obtain ⟨v8, h8⟩ := vecAt_isSome_of_lt (show startIndex + 17 < vec.length by omega)
    obtain ⟨v9, h9⟩ := vecAt_isSome_of_lt (show startIndex + 19 < vec.length by omega)
    constructor
    · intro r hr
      simp only [reads, readOffsets, List.map_cons, List.map_nil, h0, h1, h2, h3, h4, h5, h6,
        h7, h8, h9, List.mem_cons, List.mem_singleton, List.not_mem_nil, or_false] at hr
      rcases hr with hr | hr | hr | hr | hr | hr | hr | hr | hr | hr <;> (rw [hr]; rfl)
    · rw [fromVector_of_reads h0 h1 h2 h3 h4 h5 h6 h7 h8 h9]
      rfl
  · intro hw
    have hw2 : startIndex + 20 ≤ 4294967296 := hw
    constructor
    · simp only [reads, readOffsets, List.map_cons, List.map_nil]
      rw [vecAt_eq_getElem? vec (show startIndex + 1 < UINT_RANGE by unfold UINT_RANGE; omega),
        vecAt_eq_getElem? vec (show startIndex + 3 < UINT_RANGE by unfold UINT_RANGE; omega),
        vecAt_eq_getElem? vec (show startIndex + 5 < UINT_RANGE by unfold UINT_RANGE; omega),
        vecAt_eq_getElem? vec (show startIndex + 7 < UINT_RANGE by unfold UINT_RANGE; omega),
        vecAt_eq_getElem? vec (show startIndex + 9 < UINT_RANGE by unfold UINT_RANGE; omega),
        vecAt_eq_getElem? vec (show startIndex + 11 < UINT_RANGE by unfold UINT_RANGE; omega),
        vecAt_eq_getElem? vec (show startIndex + 13 < UINT_RANGE by unfold UINT_RANGE; omega),
        vecAt_eq_getElem? vec (show startIndex + 15 < UINT_RANGE by unfold UINT_RANGE; omega),
        vecAt_eq_getElem? vec (show startIndex + 17 < UINT_RANGE by unfold UINT_RANGE; omega),
        vecAt_eq_getElem? vec (show startIndex + 19 < UINT_RANGE by unfold UINT_RANGE; omega)]
    · intro hshort
      have h19 : vecAt vec startIndex 19 = none := by
        rw [vecAt_eq_getElem? vec (show startIndex + 19 < UINT_RANGE by unfold UINT_RANGE; omega)]
        exact List.getElem?_eq_none (by omega)
      refine ⟨h19, ?_, fromVector_none_of_last h19⟩
      simp only [reads, readOffsets, List.map_cons, List.map_nil, h19, List.mem_cons,
        true_or, or_true]

/-- Witness of C10: a full record decoded at index 0, and the same twenty
tokens decoded at index 2, where the last read is past the end. -/
theorem reads_in_range_witness :
    ((∀ r ∈ reads (SpawnOptions.default.toVector []) 0, r.isSome = true) ∧
      (SpawnOptions.fromVector (SpawnOptions.default.toVector []) 0).isSome = true) ∧
    (vecAt (SpawnOptions.default.toVector []) 2 19 = none ∧
      none ∈ reads (SpawnOptions.default.toVector []) 2 ∧
      SpawnOptions.fromVector (SpawnOptions.default.toVector []) 2 = none) :=
  ⟨(reads_in_range (SpawnOptions.default.toVector []) 0).1 (by decide),
   ((reads_in_range (SpawnOptions.default.toVector []) 2).2 (by decide)).2 (by decide)⟩

/-- C10 fails as stated: with `startIndex = 2^32 - 1` the `unsigned int` offsets
wrap around to `0, 2, ..., 18`, so on a vector of twenty tokens, shorter than
`startIndex + 20`, all ten reads are in range and a record is built from the
labels. -/
theorem reads_wrap_counterexample :
    (SpawnOptions.default.toVector []).length < 4294967295 + 20 ∧
    reads (SpawnOptions.default.toVector []) 4294967295 =
      [some "app_root", some "lower_privilege", some "lowest_user", some "environment",
       some "spawn_method", some "app_type", some "framework_spawner_timeout",
       some "app_spawner_timeout", some "max_requests", some "memory_limit"] ∧
    SpawnOptions.fromVector (SpawnOptions.default.toVector []) 4294967295
      = some
        { appRoot := "app_root"
          lowerPrivilege := false
          lowestUser := "lowest_user"
          environment := "environment"
          spawnMethod := "spawn_method"
          appType := "app_type"
          frameworkSpawnerTimeout := 0
          appSpawnerTimeout := 0
          maxRequests := 0
          memoryLimit := 0 } := by
  refine ⟨by decide, by decide, by decide⟩

/-! ## Decoding a vector that is long enough -/

/-- On a vector of at least `startIndex + 20` elements the ten reads are in
range and the record is built from the tokens read. -/
theorem fromVector_of_length {vec : List String} {startIndex : Nat}
    (h : startIndex + 20 ≤ vec.length) :
    ∃ v0 v1 v2 v3 v4 v5 v6 v7 v8 v9,
      vecAt vec startIndex 1 = some v0 ∧ vecAt vec startIndex 3 = some v1 ∧
      vecAt vec startIndex 5 = some v2 ∧ vecAt vec startIndex 7 = some v3 ∧
      vecAt vec startIndex 9 = some v4 ∧ vecAt vec startIndex 11 = some v5 ∧
      vecAt vec startIndex 13 = some v6 ∧ vecAt vec startIndex 15 = some v7 ∧
      vecAt vec startIndex 17 = some v8 ∧ vecAt vec startIndex 19 = some v9 ∧
      SpawnOptions.fromVector vec startIndex = some
        { appRoot := v0
          lowerPrivilege := decide (v1 = "true")
          lowestUser := v2
          environment := v3
          spawnMethod := v4
          appType := v5
          frameworkSpawnerTimeout := atol v6
          appSpawnerTimeout := atol v7
          maxRequests := longToUnsignedLong (atol v8)
          memoryLimit := longToUnsignedLong (atol v9) } := by
  obtain ⟨v0, h0⟩ := vecAt_isSome_of_lt (show startIndex + 1 < vec.length by omega)
  obtain ⟨v1, h1⟩ := vecAt_isSome_of_lt (show startIndex + 3 < vec.length by omega)
  obtain ⟨v2, h2⟩ := vecAt_isSome_of_lt (show startIndex + 5 < vec.length by omega)
  obtain ⟨v3, h3⟩ := vecAt_isSome_of_lt (show startIndex + 7 < vec.length by omega)
  obtain ⟨v4, h4⟩ := vecAt_isSome_of_lt (show startIndex + 9 < vec.length by omega)
  obtain ⟨v5, h5⟩ := vecAt_isSome_of_lt (show startIndex + 11 < vec.length by omega)
  obtain ⟨v6, h6⟩ := vecAt_isSome_of_lt (show startIndex + 13 < vec.length by omega)
  obtain ⟨v7, h7⟩ := vecAt_isSome_of_lt (show startIndex + 15 < vec.length by omega)
  obtain ⟨v8, h8⟩ := vecAt_isSome_of_lt (show startIndex + 17 < vec.length by omega)
  obtain ⟨v9, h9⟩ := vecAt_isSome_of_lt (show startIndex + 19 < vec.length by omega)
  exact ⟨v0, v1, v2, v3, v4, v5, v6, v7, v8, v9, h0, h1, h2, h3, h4, h5, h6, h7, h8, h9,
    fromVector_of_reads h0 h1 h2 h3 h4 h5 h6 h7 h8 h9⟩

theorem digitsValue_of_not_digit {cs : List Char} (h : startsWithDigit cs = false) :
    digitsValue cs 0 = 0 := by
  cases cs with
  | nil => rfl
  | cons c cs =>
    have hc : isdigit c = false := h
    simp only [digitsValue, hc, Bool.false_eq_true, if_false]

/-- A text without a leading number parses to 0. -/
theorem atol_of_noLeadingNumber {t : String} (h : noLeadingNumber t = true) : atol t = 0 := by
  unfold noLeadingNumber at h
  unfold atol
  split at h <;>
    (simp only [Bool.not_eq_true'] at h
     simp only [digitsValue_of_not_digit h]
     decide)

/-- Without wrap-around the ten reads are at `startIndex + 1, + 3, ..., + 19`. -/
theorem vecAt_of_no_wrap (vec : List String) {startIndex : Nat}
    (hw : startIndex + 20 ≤ UINT_RANGE) :
    ∀ k ∈ readOffsets, vecAt vec startIndex k = vec[startIndex + k]? := by
  intro k hk
  have hk19 : k ≤ 19 := by
    simp only [readOffsets, List.mem_cons, List.mem_singleton, List.not_mem_nil, or_false] at hk
    omega
  exact vecAt_eq_getElem? vec (by omega)

/-! ## C11: tokens that are no number -/

/-- C11 (as amended). Silent numeric fallback: for every vector with at least
`startIndex + 20` elements, `SpawnOptions(vec, startIndex)` constructs a record
without signalling failure, and whenever the token it reads at `startIndex + 13`,
`+ 15`, `+ 17` or `+ 19` has no decimal digit right after its leading white space
and optional sign (the empty string and `"abc"` are such tokens), the
corresponding field `frameworkSpawnerTimeout`, `appSpawnerTimeout`, `maxRequests`
or `memoryLimit` is 0. The reads are those of the constructor, `vec[startIndex + k]`
with the index computed as `unsigned int`; they are at the positions
`startIndex + k` whenever `startIndex + 19 < 2^32`. -/
theorem numeric_fallback_zero (vec : List String) (startIndex : Nat)
    (hlen : startIndex + 20 ≤ vec.length) :
    ∃ d, SpawnOptions.fromVector vec startIndex = some d ∧
      (∀ t, vecAt vec startIndex 13 = some t → noLeadingNumber t = true →
        d.frameworkSpawnerTimeout = 0) ∧
      (∀ t, vecAt vec startIndex 15 = some t → noLeadingNumber t = true →
        d.appSpawnerTimeout = 0) ∧
      (∀ t, vecAt vec startIndex 17 = some t → noLeadingNumber t = true →
        d.maxRequests = 0) ∧
      (∀ t, vecAt vec startIndex 19 = some t → noLeadingNumber t = true →
        d.memoryLimit = 0) ∧
      noLeadingNumber "" = true ∧ noLeadingNumber "abc" = true ∧
      (startIndex + 20 ≤ UINT_RANGE →
        ∀ k ∈ readOffsets, vecAt vec startIndex k = vec[startIndex + k]?) := by
  obtain ⟨v0, v1, v2, v3, v4, v5, v6, v7, v8, v9, _, _, _, _, _, _, h6, h7, h8, h9, hd⟩ :=
    fromVector_of_length hlen
  refine ⟨_, hd, ?_, ?_, ?_, ?_, by decide, by decide, vecAt_of_no_wrap vec⟩
  · intro t ht hn
    rw [h6, Option.some.injEq] at ht
    show atol v6 = 0
    rw [ht]; exact atol_of_noLeadingNumber hn
  · intro t ht hn
    rw [h7, Option.some.injEq] at ht
    show atol v7 = 0
    rw [ht]; exact atol_of_noLeadingNumber hn
  · intro t ht hn
    rw [h8, Option.some.injEq] at ht
    show longToUnsignedLong (atol v8) = 0
    rw [ht, atol_of_noLeadingNumber hn]; decide
  · intro t ht hn
    rw [h9, Option.some.injEq] at ht
    show longToUnsignedLong (atol v9) = 0
    rw [ht, atol_of_noLeadingNumber hn]; decide

/-- Witness of C11: behind `["my", "data"]`, a record whose four numeric tokens
are the empty string, `"abc"`, `"  -x"` and `"+"`. -/
theorem numeric_fallback_zero_witness :
    ∃ d, SpawnOptions.fromVector
        ["my", "data", "app_root", "/srv/app", "lower_privilege", "true", "lowest_user",
         "nobody", "environment", "production", "spawn_method", "smart", "app_type", "rails",
         "framework_spawner_timeout", "", "app_spawner_timeout", "abc",
         "max_requests", "  -x", "memory_limit", "+"] 2 = some d ∧
      d.frameworkSpawnerTimeout = 0 ∧ d.appSpawnerTimeout = 0 ∧
      d.maxRequests = 0 ∧ d.memoryLimit = 0 := by
  obtain ⟨d, hd, h13, h15, h17, h19, _, _, _⟩ := numeric_fallback_zero
    ["my", "data", "app_root", "/srv/app", "lower_privilege", "true", "lowest_user",
     "nobody", "environment", "production", "spawn_method", "smart", "app_type", "rails",
     "framework_spawner_timeout", "", "app_spawner_timeout", "abc",
     "max_requests", "  -x", "memory_limit", "+"] 2 (by decide)
  exact ⟨d, hd, h13 "" (by decide) (by decide), h15 "abc" (by decide) (by decide),
    h17 "  -x" (by decide) (by decide), h19 "+" (by decide) (by decide)⟩

/-- C11 fails as stated: `"12abc"` is not decimal number text, and a token
`"12abc"` at `startIndex + 13` or `startIndex + 17` gives the field the value 12,
not 0; so does `" 7"`, which gives 7. -/
theorem numeric_fallback_counterexample :
    isDecimalNumberText "12abc" = false ∧ isDecimalNumberText " 7" = false ∧
    SpawnOptions.fromVector
      ["app_root", "/srv/app", "lower_privilege", "true", "lowest_user",
       "nobody", "environment", "production", "spawn_method", "smart", "app_type", "rails",
       "framework_spawner_timeout", "12abc", "app_spawner_timeout", " 7",
       "max_requests", "12abc", "memory_limit", " 7"] 0
      = some (SpawnOptions.create "/srv/app" true "nobody" "production" "smart" "rails" 12 7 12
          7) := by
  refine ⟨by decide, by decide, by decide⟩

/-! ## C12: the labels are never read -/

/-- Two vectors on which the ten reads give the same results decode alike. -/
theorem fromVector_congr {v w : List String} {startIndex : Nat}
    (h : ∀ k ∈ readOffsets, vecAt v startIndex k = vecAt w startIndex k) :
    SpawnOptions.fromVector v startIndex = SpawnOptions.fromVector w startIndex := by
  unfold SpawnOptions.fromVector
  rw [h 1 (by decide), h 3 (by decide), h 5 (by decide), h 7 (by decide), h 9 (by decide),
    h 11 (by decide), h 13 (by decide), h 15 (by decide), h 17 (by decide), h 19 (by decide)]

/-- C12 (as amended). The positional decoder never inspects labels: for every
`startIndex` with `startIndex + 19 < 2^32` (the `unsigned int` offsets do not wrap)
and every two vectors `v` and `w` of length at least `startIndex + 20` that hold
equal tokens at the ten positions `startIndex + 1, startIndex + 3, ...,
startIndex + 19`, `SpawnOptions(v, startIndex)` and `SpawnOptions(w, startIndex)` are
both constructed and equal in all ten fields, whatever the tokens at the label
positions or anywhere else are. -/
theorem decoder_ignores_labels (startIndex : Nat) (v w : List String)
    (hwrap : startIndex + 20 ≤ UINT_RANGE)
    (hv : startIndex + 20 ≤ v.length) (hw : startIndex + 20 ≤ w.length)
    (heq : ∀ k ∈ readOffsets, v[startIndex + k]? = w[startIndex + k]?) :
    ∃ d, SpawnOptions.fromVector v startIndex = some d ∧
      SpawnOptions.fromVector w startIndex = some d := by
  obtain ⟨v0, v1, v2, v3, v4, v5, v6, v7, v8, v9, _, _, _, _, _, _, _, _, _, _, hd⟩ :=
    fromVector_of_length hv
  obtain ⟨w0, w1, w2, w3, w4, w5, w6, w7, w8, w9, _, _, _, _, _, _, _, _, _, _, hd2⟩ :=
    fromVector_of_length hw
  refine ⟨_, hd, ?_⟩
  rw [← hd]
  apply fromVector_congr
  intro k hk
  rw [vecAt_of_no_wrap v hwrap k hk, vecAt_of_no_wrap w hwrap k hk]
  exact (heq k hk).symm

/-- Witness of C12: behind two different leading tokens, the encoding of the
default record and the same ten values under misspelt, reordered and empty
labels. -/
theorem decoder_ignores_labels_witness :
    ∃ d, SpawnOptions.fromVector (SpawnOptions.default.toVector ["my", "data"]) 2 = some d ∧
      SpawnOptions.fromVector
        ["your", "data", "memory_limit", "", "", "true", "LOWEST USER", "nobody",
         "app_root", "production", "7", "smart", "", "rails", "x", "-1", "y", "-1",
         "max_request", "0", "max_requests", "0", "trailing"] 2 = some d :=
  decoder_ignores_labels 2 (SpawnOptions.default.toVector ["my", "data"])
    ["your", "data", "memory_limit", "", "", "true", "LOWEST USER", "nobody",
     "app_root", "production", "7", "smart", "", "rails", "x", "-1", "y", "-1",
     "max_request", "0", "max_requests", "0", "trailing"]
    (by decide) (by decide) (by decide) (by decide)

/-- C12 fails as stated: with `startIndex = 2^32 - 1` the offsets wrap around, so
the tokens decoded are those at `0, 2, ..., 18`. Two vectors of `2^32 + 19`
elements that differ at index 0 only hold equal tokens at the ten positions
`startIndex + 1, ..., startIndex + 19`, and decode to different records. -/
theorem decoder_wrap_counterexample :
    4294967295 + 20 ≤ ("a" :: List.replicate 4294967314 "x").length ∧
    4294967295 + 20 ≤ ("b" :: List.replicate 4294967314 "x").length ∧
    (∀ k ∈ readOffsets, ("a" :: List.replicate 4294967314 "x")[4294967295 + k]?
      = ("b" :: List.replicate 4294967314 "x")[4294967295 + k]?) ∧
    SpawnOptions.fromVector ("a" :: List.replicate 4294967314 "x") 4294967295
      = some
        { appRoot := "a"
          lowerPrivilege := false
          lowestUser := "x"
          environment := "x"
          spawnMethod := "x"
          appType := "x"
          frameworkSpawnerTimeout := 0
          appSpawnerTimeout := 0
          maxRequests := 0
          memoryLimit := 0 } ∧
    SpawnOptions.fromVector ("b" :: List.replicate 4294967314 "x") 4294967295
      = some
        { appRoot := "b"
          lowerPrivilege := false
          lowestUser := "x"
          environment := "x"
          spawnMethod := "x"
          appType := "x"
          frameworkSpawnerTimeout := 0
          appSpawnerTimeout := 0
          maxRequests := 0
          memoryLimit := 0 } := by
  have hx : ∀ (a : String) (i : Nat), 1 ≤ i → i ≤ 4294967314 →
      (a :: List.replicate 4294967314 "x")[i]? = some "x" := by
    intro a i h1 h2
    cases i with
    | zero => omega
    | succ j => rw [List.getElem?_cons_succ, List.getElem?_replicate, if_pos (by omega)]
  have hdec : ∀ a : String,
      SpawnOptions.fromVector (a :: List.replicate 4294967314 "x") 4294967295
        = some
          { appRoot := a
            lowerPrivilege := false
            lowestUser := "x"
            environment := "x"
            spawnMethod := "x"
            appType := "x"
            frameworkSpawnerTimeout := 0
            appSpawnerTimeout := 0
            maxRequests := 0
            memoryLimit := 0 } := by
    intro a
    unfold SpawnOptions.fromVector vecAt
    rw [wrap_offset (show 1 ≤ 1 by decide) (by decide),
      wrap_offset (show 1 ≤ 3 by decide) (by decide),
      wrap_offset (show 1 ≤ 5 by decide) (by decide),
      wrap_offset (show 1 ≤ 7 by decide) (by decide),
      wrap_offset (show 1 ≤ 9 by decide) (by decide),
      wrap_offset (show 1 ≤ 11 by decide) (by decide),
      wrap_offset (show 1 ≤ 13 by decide) (by decide),
      wrap_offset (show 1 ≤ 15 by decide) (by decide),
      wrap_offset (show 1 ≤ 17 by decide) (by decide),
      wrap_offset (show 1 ≤ 19 by decide) (by decide)]
    rw [hx a (3 - 1) (by decide) (by decide), hx a (5 - 1) (by decide) (by decide),
      hx a (7 - 1) (by decide) (by decide), hx a (9 - 1) (by decide) (by decide),
      hx a (11 - 1) (by decide) (by decide), hx a (13 - 1) (by decide) (by decide),
      hx a (15 - 1) (by decide) (by decide), hx a (17 - 1) (by decide) (by decide),
      hx a (19 - 1) (by decide) (by decide), Nat.sub_self, List.getElem?_cons_zero]
    have ha : atol "x" = 0 := by decide
    have hl : longToUnsignedLong 0 = 0 := by decide
    have hb : decide ("x" = "true") = false := by decide
    simp only [Option.bind_eq_bind, Option.some_bind, Option.pure_def, ha, hl, hb]
  refine ⟨?_, ?_, ?_, hdec "a", hdec "b"⟩
  · rw [List.length_cons, List.length_replicate]
  · rw [List.length_cons, List.length_replicate]
  · intro k hk
    have hk1 : 1 ≤ k ∧ k ≤ 19 := by
      simp only [readOffsets, List.mem_cons, List.mem_singleton, List.not_mem_nil,
        or_false] at hk
      omega
    rw [hx "a" _ (by omega) (by omega), hx "b" _ (by omega) (by omega)]

/-! ## C13: the unsigned limits -/

/-- What comes back for an `unsigned long` written and parsed again: the value
itself exactly when it is at most `2^63 - 1`. -/
theorem unsigned_roundtrip_iff (n : Nat) :
    longToUnsignedLong (atol (toStringUnsignedLong n)) = n ↔ n ≤ 2 ^ 63 - 1 := by
  by_cases h : (n : Int) ≤ LONG_MAX
  · rw [atol_toStringUnsignedLong h]
    unfold LONG_MAX at h
    constructor
    · intro _; omega
    · intro _; rfl
  · rw [atol_toStringUnsignedLong_big (not_le.mp h)]
    unfold LONG_MAX at h
    constructor
    · intro he; omega
    · intro he; omega

/-- C13 (as amended). Round trip of the unsigned limits within the signed range:
for every record `o` and every vector `vec` with `vec.size() + 20 ≤ 2^32`, encoding
with `toVector` onto `vec` and decoding at the old size of `vec` constructs a
record whose `maxRequests` equals that of `o` exactly when
`o.maxRequests ≤ 2^63 - 1`, and whose `memoryLimit` equals that of `o` exactly when
`o.memoryLimit ≤ 2^63 - 1`: the bound is the condition under which the unsigned
fields are preserved. -/
theorem unsigned_limits_roundtrip (o : SpawnOptions) (vec : List String)
    (hlen : vec.length + 20 ≤ UINT_RANGE) :
    ∃ d, SpawnOptions.fromVector (o.toVector vec) vec.length = some d ∧
      (d.maxRequests = o.maxRequests ↔ o.maxRequests ≤ 2 ^ 63 - 1) ∧
      (d.memoryLimit = o.memoryLimit ↔ o.memoryLimit ≤ 2 ^ 63 - 1) := by
  rw [toVector_eq, fromVector_append _ _ _ _ _ _ _ _ _ _ _ _ _ _ _ _ _ _ _ _ _ hlen]
  exact ⟨_, rfl, unsigned_roundtrip_iff o.maxRequests, unsigned_roundtrip_iff o.memoryLimit⟩

/-- Witness of C13: the largest limit that survives and the smallest that does
not, appended to `["my", "data"]`. -/
theorem unsigned_limits_roundtrip_witness :
    ∃ d, SpawnOptions.fromVector
        ((SpawnOptions.create "/srv/app" true "nobody" "production" "smart" "rails" (-1) (-1)
          9223372036854775807 9223372036854775808).toVector ["my", "data"])
        ["my", "data"].length = some d ∧
      d.maxRequests = 9223372036854775807 ∧ d.memoryLimit ≠ 9223372036854775808 := by
  obtain ⟨d, hd, h1, h2⟩ := unsigned_limits_roundtrip
    (SpawnOptions.create "/srv/app" true "nobody" "production" "smart" "rails" (-1) (-1)
      9223372036854775807 9223372036854775808) ["my", "data"] (by decide)
  exact ⟨d, hd, h1.mpr (by decide), fun he => absurd (h2.mp he) (by decide)⟩

/-- C13 fails as stated: the limits 500 and 128 are far below `2^63 - 1`, but
appended to a vector of `2^32 - 1` elements and decoded at that size, where the
`unsigned int` offsets wrap around, they come back as 0 and 0. -/
theorem unsigned_limits_counterexample :
    (SpawnOptions.create "/srv/app" true "nobody" "production" "smart" "rails" (-1) (-1) 500
      128).maxRequests ≤ 2 ^ 63 - 1 ∧
    (SpawnOptions.create "/srv/app" true "nobody" "production" "smart" "rails" (-1) (-1) 500
      128).memoryLimit ≤ 2 ^ 63 - 1 ∧
    (List.replicate 4294967295 "x").length = 4294967295 ∧
    (SpawnOptions.fromVector
      ((SpawnOptions.create "/srv/app" true "nobody" "production" "smart" "rails" (-1) (-1) 500
        128).toVector (List.replicate 4294967295 "x"))
      (List.replicate 4294967295 "x").length).map
        (fun d => (d.maxRequests, d.memoryLimit)) = some (0, 0) := by
  refine ⟨by decide, by decide, List.length_replicate _ _, ?_⟩
  rw [toVector_eq, List.length_replicate, fromVector_behind_full]
  rfl

/-! ## C14: the privilege flag is true for "true" only -/

/-- C14. For every vector with at least `startIndex + 20` elements,
`SpawnOptions(vec, startIndex)` is constructed and its `lowerPrivilege` is true if
and only if `vec[startIndex + 3]` is the exact text `"true"`; the tokens `"false"`,
`"True"`, `"1"`, `"yes"` and the empty string decode to false rather than being
rejected. The read is that of the constructor, with the index computed as
`unsigned int`; it is at position `startIndex + 3` whenever `startIndex + 19 < 2^32`. -/
theorem lowerPrivilege_iff_true (vec : List String) (startIndex : Nat)
    (hlen : startIndex + 20 ≤ vec.length) :
    ∃ d, SpawnOptions.fromVector vec startIndex = some d ∧
      (d.lowerPrivilege = true ↔ vecAt vec startIndex 3 = some "true") ∧
      (∀ t ∈ ["false", "True", "1", "yes", "", "TRUE", " true", "true "],
        vecAt vec startIndex 3 = some t → d.lowerPrivilege = false) ∧
      (startIndex + 20 ≤ UINT_RANGE →
        ∀ k ∈ readOffsets, vecAt vec startIndex k = vec[startIndex + k]?) := by
  obtain ⟨v0, v1, v2, v3, v4, v5, v6, v7, v8, v9, _, h1, _, _, _, _, _, _, _, _, hd⟩ :=
    fromVector_of_length hlen
  refine ⟨_, hd, ?_, ?_, vecAt_of_no_wrap vec⟩
  · show decide (v1 = "true") = true ↔ _
    rw [h1, Option.some.injEq, decide_eq_true_eq]
  · intro t ht hv
    have hne : ∀ s ∈ ["false", "True", "1", "yes", "", "TRUE", " true", "true "],
        s ≠ "true" := by decide
    rw [h1, Option.some.injEq] at hv
    show decide (v1 = "true") = false
    rw [hv, decide_eq_false_iff_not]
    exact hne t ht

/-- Witness of C14: the same record with the token `"true"` and with `"True"`. -/
theorem lowerPrivilege_iff_true_witness :
    (∃ d, SpawnOptions.fromVector
        ["app_root", "/srv/app", "lower_privilege", "true", "lowest_user",
         "nobody", "environment", "production", "spawn_method", "smart", "app_type", "rails",
         "framework_spawner_timeout", "-1", "app_spawner_timeout", "-1",
         "max_requests", "0", "memory_limit", "0"] 0 = some d ∧ d.lowerPrivilege = true) ∧
    (∃ d, SpawnOptions.fromVector
        ["app_root", "/srv/app", "lower_privilege", "True", "lowest_user",
         "nobody", "environment", "production", "spawn_method", "smart", "app_type", "rails",
         "framework_spawner_timeout", "-1", "app_spawner_timeout", "-1",
         "max_requests", "0", "memory_limit", "0"] 0 = some d ∧ d.lowerPrivilege = false) := by
  constructor
  · obtain ⟨d, hd, hiff, _, _⟩ := lowerPrivilege_iff_true
      ["app_root", "/srv/app", "lower_privilege", "true", "lowest_user",
       "nobody", "environment", "production", "spawn_method", "smart", "app_type", "rails",
       "framework_spawner_timeout", "-1", "app_spawner_timeout", "-1",
       "max_requests", "0", "memory_limit", "0"] 0 (by decide)
    exact ⟨d, hd, hiff.mpr (by decide)⟩
  · obtain ⟨d, hd, _, hother, _⟩ := lowerPrivilege_iff_true
      ["app_root", "/srv/app", "lower_privilege", "True", "lowest_user",
       "nobody", "environment", "production", "spawn_method", "smart", "app_type", "rails",
       "framework_spawner_timeout", "-1", "app_spawner_timeout", "-1",
       "max_requests", "0", "memory_limit", "0"] 0 (by decide)
    exact ⟨d, hd, hother "True" (by decide) (by decide)⟩

/-! ## C15: negative text in an unsigned field -/

/-- The text of `-k` parsed and stored in an `unsigned long` is `2^64 - k`. -/
theorem negative_text_value {k : Nat} (hk1 : 1 ≤ k) (hk2 : k ≤ 2 ^ 63) :
    longToUnsignedLong (atol (toStringLong (-(k : Int)))) = 2 ^ 64 - k := by
  rw [atol_toStringLong (by unfold LONG_MIN; omega) (by unfold LONG_MAX; omega)]
  unfold longToUnsignedLong ULONG_RANGE
  omega

/-- C15. Negative text in an unsigned field wraps instead of being rejected: for
every vector with at least `startIndex + 20` elements and every `k` with
`1 ≤ k ≤ 2^63`, `SpawnOptions(vec, startIndex)` is constructed, and if the token at
`startIndex + 17` is the decimal text of `-k` then `maxRequests` is `2^64 - k`, and
if the token at `startIndex + 19` is that text then `memoryLimit` is `2^64 - k`; the
text of `-1` is `"-1"`, which so decodes to `2^64 - 1`. The reads are those of the
constructor, with the index computed as `unsigned int`; they are at the positions
`startIndex + k` whenever `startIndex + 19 < 2^32`. -/
theorem negative_text_wraps (vec : List String) (startIndex k : Nat)
    (hlen : startIndex + 20 ≤ vec.length) (hk1 : 1 ≤ k) (hk2 : k ≤ 2 ^ 63) :
    ∃ d, SpawnOptions.fromVector vec startIndex = some d ∧
      (vecAt vec startIndex 17 = some (toStringLong (-(k : Int))) →
        d.maxRequests = 2 ^ 64 - k) ∧
      (vecAt vec startIndex 19 = some (toStringLong (-(k : Int))) →
        d.memoryLimit = 2 ^ 64 - k) ∧
      toStringLong (-1) = "-1" ∧
      (startIndex + 20 ≤ UINT_RANGE →
        ∀ j ∈ readOffsets, vecAt vec startIndex j = vec[startIndex + j]?) := by
  obtain ⟨v0, v1, v2, v3, v4, v5, v6, v7, v8, v9, _, _, _, _, _, _, _, _, h8, h9, hd⟩ :=
    fromVector_of_length hlen
  refine ⟨_, hd, ?_, ?_, by decide, vecAt_of_no_wrap vec⟩
  · intro ht
    rw [h8, Option.some.injEq] at ht
    show longToUnsignedLong (atol v8) = _
    rw [ht]; exact negative_text_value hk1 hk2
  · intro ht
    rw [h9, Option.some.injEq] at ht
    show longToUnsignedLong (atol v9) = _
    rw [ht]; exact negative_text_value hk1 hk2

/-- Witness of C15: `"-1"` in both unsigned fields. -/
theorem negative_text_wraps_witness :
    ∃ d, SpawnOptions.fromVector
        ["app_root", "/srv/app", "lower_privilege", "true", "lowest_user",
         "nobody", "environment", "production", "spawn_method", "smart", "app_type", "rails",
         "framework_spawner_timeout", "-1", "app_spawner_timeout", "-1",
         "max_requests", "-1", "memory_limit", "-1"] 0 = some d ∧
      d.maxRequests = 18446744073709551615 ∧ d.memoryLimit = 18446744073709551615 := by
  obtain ⟨d, hd, h17, h19, _, _⟩ := negative_text_wraps
    ["app_root", "/srv/app", "lower_privilege", "true", "lowest_user",
     "nobody", "environment", "production", "spawn_method", "smart", "app_type", "rails",
     "framework_spawner_timeout", "-1", "app_spawner_timeout", "-1",
     "max_requests", "-1", "memory_limit", "-1"] 0 1 (by decide) (by decide) (by decide)
  exact ⟨d, hd, h17 (by decide), h19 (by decide)⟩

end Passenger
